import Mathlib

/-!
Shallow embedding of the completion-node client library.

Source files embedded:
  - src/completion.ts : class Completion (constructor and the log method)
  - src/types.ts      : CompletionOptions and CompletionMessage

JavaScript effects are made explicit: the UUID generator is a value passed
in together with a flag recording whether it was consulted (the
destructuring default logId = uuidv4() consults it exactly when logId is
undefined, at the top of the function body, before any validation); the
HTTP transport is a function from requests to outcomes; console output is
collected in lists. JavaScript truthiness on the optional string fields is
modelled by strFalsy (undefined and the empty string are falsy) and on the
optional message arrays by msgsFalsy (only undefined is falsy: a JS array,
even empty, is truthy).
-/

/-- A chat message, from types.ts (role and content, per the spec data model). -/
structure CompletionMessage where
  role : String
  content : String
deriving DecidableEq

/-- Opaque string-keyed maps (Record of string to unknown in types.ts);
the values are never inspected by this library, so an association list of
strings suffices. -/
abbrev RecordMap := List (String × String)

/-- CompletionOptions from types.ts. templateName is declared required by
the TypeScript interface but may be undefined at runtime (the test suite
calls log with an empty object), and the code guards it with a truthiness
check, so it is modelled as an Option. -/
structure CompletionOptions where
  logId : Option String := none
  templateName : Option String := none
  promptTemplate : Option String := none
  messagesTemplate : Option (List CompletionMessage) := none
  promptArguments : Option RecordMap := none
  model : String
  modelArguments : Option RecordMap := none
  output : String
  compiledPrompt : Option String := none
  compiledMessages : Option (List CompletionMessage) := none
  metadata : Option RecordMap := none
  parser : Option String := none
deriving DecidableEq

/-- The Completion class state: apiKey and apiUrl, both set at construction. -/
structure Completion where
  apiKey : String
  apiUrl : String
deriving DecidableEq

/-- Modelled from the spec: the built-in default endpoint constant imported
from constants.ts, a file not included in the sources. Only its identity
matters to the claims, never its value. -/
def DEFAULT_API_URL : String := "https://api.completionhq.com/api/v1/completion"

/-- The optional constructor argument object. -/
structure CompletionCtorOptions where
  apiKey : Option String := none
  apiUrl : Option String := none
deriving DecidableEq

/-- The constructor error message. -/
def apiKeyMissingMsg : String :=
  "API key is missing. Please provide an API key or set the COMPLETION_API_KEY environment variable."

/-- The apiKey resolution on the first constructor line:
options?.apiKey ?? process.env.COMPLETION_API_KEY ?? empty string.
The ?? operator takes the left operand whenever it is not undefined. -/
def resolveApiKey (options : Option CompletionCtorOptions) (env : Option String) : String :=
  (((options.bind CompletionCtorOptions.apiKey).orElse (fun _ => env)).getD "")

/-- The Completion constructor. env is the value of the
COMPLETION_API_KEY environment variable (none when unset). Throwing is
modelled by Except.error carrying the message. -/
def Completion.create (options : Option CompletionCtorOptions) (env : Option String) :
    Except String Completion :=
  if (resolveApiKey options env).length = 0 then
    Except.error apiKeyMissingMsg
  else
    Except.ok { apiKey := resolveApiKey options env
                apiUrl := (options.bind CompletionCtorOptions.apiUrl).getD DEFAULT_API_URL }

/-- Validation error message for a missing template name. -/
def templateNameRequiredMsg : String := "Template name is required."

/-- Validation error message when none of the four prompt-source fields is truthy. -/
def eitherRequiredMsg : String :=
  "Either promptTemplate, messagesTemplate, compiledPrompt, or compiledMessages is required."

/-- Validation error message when more than one prompt-source field is defined. -/
def onlyOneAllowedMsg : String :=
  "Only one of promptTemplate, messagesTemplate, compiledPrompt, or compiledMessages is allowed."

/-- JS truthiness negation for an optional string: !x is true when x is
undefined or the empty string. -/
def strFalsy : Option String → Bool
  | none => true
  | some s => s == ""

/-- JS truthiness negation for an optional message array: !x is true only
when x is undefined; a JS array is truthy even when empty. -/
def msgsFalsy : Option (List CompletionMessage) → Bool
  | none => true
  | some _ => false

/-- The condition of the second validation check in log:
!promptTemplate and !messagesTemplate and !compiledPrompt and !compiledMessages. -/
def allFourFalsy (o : CompletionOptions) : Bool :=
  strFalsy o.promptTemplate && msgsFalsy o.messagesTemplate &&
    strFalsy o.compiledPrompt && msgsFalsy o.compiledMessages

/-- The count used by the third validation check in log: the length of the
filter keeping the fields that are not undefined, over the array of the
four prompt-source fields. -/
def definedCount (o : CompletionOptions) : Nat :=
  ([o.promptTemplate.isSome, o.messagesTemplate.isSome,
    o.compiledPrompt.isSome, o.compiledMessages.isSome].filter (fun b => b)).length

/-- The wire payload object literal built by log, field for field. -/
structure Payload where
  log_id : String
  template_name : Option String
  prompt_template : Option String
  messages_template : Option (List CompletionMessage)
  prompt_arguments : Option RecordMap
  model : String
  model_arguments : Option RecordMap
  output : String
  compiled_prompt : Option String
  compiled_messages : Option (List CompletionMessage)
  metadata : Option RecordMap
  parser : Option String
deriving DecidableEq

/-- One outbound HTTP POST: url, JSON body, and the Authorization header value. -/
structure Request where
  url : String
  body : Payload
  authorization : String
deriving DecidableEq

/-- Outcome of the axios.post call: a resolved response (its data) or a
rejection (the error). -/
inductive TransportOutcome where
  | success (dat : String)
  | failure (err : String)
deriving DecidableEq

/-- Observable trace of one log call. thrown is the synchronously thrown
validation error, if any (the returned promise resolves exactly when
thrown is none); requests lists the transport invocations; consoleLog and
consoleError list the (prefixString, payload) diagnostic pairs emitted to
stdout and stderr; uuidGenCalled records whether the destructuring default
consulted the UUID generator. -/
structure LogTrace where
  uuidGenCalled : Bool
  thrown : Option String
  requests : List Request
  consoleLog : List (String × String)
  consoleError : List (String × String)
deriving DecidableEq

/-- The payload object literal from log, given the already-defaulted logId. -/
def buildPayload (options : CompletionOptions) (logId : String) : Payload :=
  { log_id := logId
    template_name := options.templateName
    prompt_template := options.promptTemplate
    messages_template := options.messagesTemplate
    prompt_arguments := options.promptArguments
    model := options.model
    model_arguments := options.modelArguments
    output := options.output
    compiled_prompt := options.compiledPrompt
    compiled_messages := options.compiledMessages
    metadata := options.metadata
    parser := options.parser }

/-- The single axios.post request issued by log: configured apiUrl, the
payload as body, and the Bearer authorization header. genId is the value
the UUID generator would produce; it enters the payload only when logId is
absent. -/
def buildRequest (c : Completion) (options : CompletionOptions) (genId : String) : Request :=
  { url := c.apiUrl
    body := buildPayload options (options.logId.getD genId)
    authorization := "Bearer " ++ c.apiKey }

/-- The log method of Completion, from completion.ts. genId models the
uuidv4() generator output; transport models axios.post. The destructuring
default consults the generator exactly when options.logId is undefined,
before the validation checks run. The three validation checks then run in
source order, each throwing its message; past validation the payload is
built, one POST is issued, and the outcome is caught: success logs to
stdout, failure logs to stderr, and the promise resolves either way. -/
def Completion.log (c : Completion) (options : CompletionOptions) (genId : String)
    (transport : Request → TransportOutcome) : LogTrace :=
  let uuidGenCalled := options.logId.isNone
  if strFalsy options.templateName then
    { uuidGenCalled := uuidGenCalled, thrown := some templateNameRequiredMsg,
      requests := [], consoleLog := [], consoleError := [] }
  else if allFourFalsy options then
    { uuidGenCalled := uuidGenCalled, thrown := some eitherRequiredMsg,
      requests := [], consoleLog := [], consoleError := [] }
  else if definedCount options > 1 then
    { uuidGenCalled := uuidGenCalled, thrown := some onlyOneAllowedMsg,
      requests := [], consoleLog := [], consoleError := [] }
  else
    let req := buildRequest c options genId
    match transport req with
    | TransportOutcome.success dat =>
      { uuidGenCalled := uuidGenCalled, thrown := none, requests := [req],
        consoleLog := [("Completion logged successfully:", dat)], consoleError := [] }
    | TransportOutcome.failure err =>
      { uuidGenCalled := uuidGenCalled, thrown := none, requests := [req],
        consoleLog := [], consoleError := [("Error logging completion:", err)] }

/-- A concrete logger instance for concrete evaluations. -/
def sampleLogger : Completion := { apiKey := "test_api_key", apiUrl := "http://testurl.com" }

/-- A transport that always resolves. -/
def okTransport : Request → TransportOutcome := fun _ => TransportOutcome.success "Success"

/-- A transport that always rejects. -/
def failTransport : Request → TransportOutcome := fun _ => TransportOutcome.failure "Network Error"

/-- A fully valid record: one truthy prompt-source field. -/
def validOpts : CompletionOptions :=
  { templateName := some "testTemplate", promptTemplate := some "Hello, name"
    promptArguments := some [("name", "world")], model := "test_model"
    output := "Hello, world!", parser := some "handlebars" }

/-- A record whose only prompt-source field is the empty string promptTemplate. -/
def emptyPromptOpts : CompletionOptions :=
  { templateName := some "testTemplate", promptTemplate := some ""
    model := "test_model", output := "out" }

/-- A record with no templateName and no logId. -/
def noTemplateOpts : CompletionOptions := { model := "m", output := "o" }

/-- Claim C1, counterexample: the record emptyPromptOpts has a non-empty
templateName and exactly one of the four prompt-source fields present
(promptTemplate, which is the empty string; the other three undefined),
yet log throws the Either-is-required error instead of proceeding, because
the at-least-one check tests JS truthiness, not presence. -/
theorem c1_counterexample :
    definedCount emptyPromptOpts = 1 ∧
    strFalsy emptyPromptOpts.templateName = false ∧
    (sampleLogger.log emptyPromptOpts "gid" okTransport).thrown = some eitherRequiredMsg := by
  decide

/-- Claim C1 (amended): for every record whose templateName is non-empty
and in which exactly one of the four prompt-source fields is present and
that present field is truthy (a non-empty string, or a messages array,
which is always truthy), validation passes: no error is thrown and the
call proceeds to build the payload and issue the request. -/
theorem c1_exactly_one_truthy_field_passes (c : Completion) (o : CompletionOptions)
    (g : String) (t : Request → TransportOutcome)
    (h1 : strFalsy o.templateName = false)
    (h2 : definedCount o = 1)
    (h3 : allFourFalsy o = false) :
    (c.log o g t).thrown = none ∧ (c.log o g t).requests = [buildRequest c o g] := by
  have hd : ¬ definedCount o > 1 := by omega
  cases ht : t (buildRequest c o g) <;>
    simp [Completion.log, h1, h3, hd, ht]

/-- Claim C1 witness: a concrete record with exactly one, truthy,
prompt-source field passes validation. -/
theorem c1_witness :
    strFalsy validOpts.templateName = false ∧ definedCount validOpts = 1 ∧
    allFourFalsy validOpts = false ∧
    (sampleLogger.log validOpts "gid" okTransport).thrown = none :=
  have h := c1_exactly_one_truthy_field_passes sampleLogger validOpts "gid" okTransport
    (by decide) (by decide) (by decide)
  ⟨by decide, by decide, by decide, h.1⟩

/-- A record whose only prompt-source field is the empty string compiledPrompt. -/
def emptyCompiledOpts : CompletionOptions :=
  { templateName := some "tmpl", compiledPrompt := some "", model := "m", output := "o" }

/-- Claim C2, counterexample: on the record emptyCompiledOpts the three
rules as the claim words them are all satisfied (templateName non-empty,
exactly one of the four fields present, at most one present), so per the
claim no error should be reported; yet log throws the Either-is-required
error, because the second check tests truthiness rather than presence. -/
theorem c2_counterexample :
    strFalsy emptyCompiledOpts.templateName = false ∧
    definedCount emptyCompiledOpts = 1 ∧
    (sampleLogger.log emptyCompiledOpts "gid" okTransport).thrown = some eitherRequiredMsg := by
  decide

/-- Claim C2 (amended): log performs exactly three validation checks,
synchronously and in this order: (1) templateName truthy, else the
Template-name-is-required error; (2) at least one of the four prompt-source
fields truthy, where an empty-string field counts as absent, else the
Either-is-required error; (3) at most one of the four fields defined, else
the Only-one-is-allowed error. The first violated rule alone determines
the single reported error, and no error is thrown when no rule is violated. -/
theorem c2_ordered_validation (c : Completion) (o : CompletionOptions)
    (g : String) (t : Request → TransportOutcome) :
    (strFalsy o.templateName = true →
      (c.log o g t).thrown = some templateNameRequiredMsg) ∧
    (strFalsy o.templateName = false → allFourFalsy o = true →
      (c.log o g t).thrown = some eitherRequiredMsg) ∧
    (strFalsy o.templateName = false → allFourFalsy o = false → definedCount o > 1 →
      (c.log o g t).thrown = some onlyOneAllowedMsg) ∧
    (strFalsy o.templateName = false → allFourFalsy o = false → ¬ definedCount o > 1 →
      (c.log o g t).thrown = none) := by
  refine ⟨fun h1 => ?_, fun h1 h2 => ?_, fun h1 h2 h3 => ?_, fun h1 h2 h3 => ?_⟩
  · simp [Completion.log, h1]
  · simp [Completion.log, h1, h2]
  · simp [Completion.log, h1, h2, h3]
  · cases ht : t (buildRequest c o g) <;> simp [Completion.log, h1, h2, h3, ht]

/-- Claim C2 witness: on a record with no templateName the first rule
fires with its message. -/
theorem c2_witness :
    strFalsy noTemplateOpts.templateName = true ∧
    (sampleLogger.log noTemplateOpts "gid" okTransport).thrown = some templateNameRequiredMsg :=
  ⟨by decide,
    (c2_ordered_validation sampleLogger noTemplateOpts "gid" okTransport).1 (by decide)⟩

/-- A record providing two prompt-source fields, both empty strings. -/
def twoEmptyStringsOpts : CompletionOptions :=
  { templateName := some "tmpl", promptTemplate := some "", compiledPrompt := some ""
    model := "m", output := "o" }

/-- Claim C3, counterexample: the record twoEmptyStringsOpts has a
non-empty templateName and provides two of the four prompt-source fields
(both empty strings), yet log reports the Either-is-required error, not
the Only-one-is-allowed error, because the earlier truthiness check fires
first. -/
theorem c3_counterexample :
    strFalsy twoEmptyStringsOpts.templateName = false ∧
    definedCount twoEmptyStringsOpts = 2 ∧
    (sampleLogger.log twoEmptyStringsOpts "gid" okTransport).thrown = some eitherRequiredMsg ∧
    (sampleLogger.log twoEmptyStringsOpts "gid" okTransport).thrown ≠ some onlyOneAllowedMsg := by
  decide

/-- Claim C3 (amended): for every record with truthy templateName that
provides two or more of the four prompt-source fields, at least one of
them truthy, log rejects with the Only-one-is-allowed error message; when
every provided field is an empty string the Either-is-required error is
reported instead. -/
theorem c3_two_or_more_rejected (c : Completion) (o : CompletionOptions)
    (g : String) (t : Request → TransportOutcome)
    (h1 : strFalsy o.templateName = false)
    (h2 : 2 ≤ definedCount o)
    (h3 : allFourFalsy o = false) :
    (c.log o g t).thrown = some onlyOneAllowedMsg := by
  have hd : definedCount o > 1 := by omega
  simp [Completion.log, h1, h3, hd]

/-- A record providing two truthy prompt-source fields. -/
def twoFieldsOpts : CompletionOptions :=
  { templateName := some "tmpl", promptTemplate := some "p", compiledPrompt := some "q"
    model := "m", output := "o" }

/-- Claim C3 witness: a concrete record with two truthy prompt-source
fields is rejected with the Only-one-is-allowed message. -/
theorem c3_witness :
    strFalsy twoFieldsOpts.templateName = false ∧ 2 ≤ definedCount twoFieldsOpts ∧
    allFourFalsy twoFieldsOpts = false ∧
    (sampleLogger.log twoFieldsOpts "gid" okTransport).thrown = some onlyOneAllowedMsg :=
  ⟨by decide, by decide, by decide,
    c3_two_or_more_rejected sampleLogger twoFieldsOpts "gid" okTransport
      (by decide) (by decide) (by decide)⟩

/-- Claim C4: for every record violating any of the three validation
rules, log throws before any network activity: the HTTP POST is never
issued and no success or failure diagnostic is emitted for that call. -/
theorem c4_invalid_record_no_network (c : Completion) (o : CompletionOptions)
    (g : String) (t : Request → TransportOutcome)
    (h : strFalsy o.templateName = true ∨ allFourFalsy o = true ∨ definedCount o > 1) :
    (c.log o g t).thrown.isSome = true ∧ (c.log o g t).requests = [] ∧
    (c.log o g t).consoleLog = [] ∧ (c.log o g t).consoleError = [] := by
  by_cases h1 : strFalsy o.templateName = true
  · simp [Completion.log, h1]
  · have h1f : strFalsy o.templateName = false := by
      revert h1
      cases strFalsy o.templateName <;> simp
    by_cases h2 : allFourFalsy o = true
    · simp [Completion.log, h1f, h2]
    · have h2f : allFourFalsy o = false := by
        revert h2
        cases allFourFalsy o <;> simp
      have h3 : definedCount o > 1 := by
        rcases h with h | h | h
        · rw [h1f] at h
          exact absurd h (by simp)
        · rw [h2f] at h
          exact absurd h (by simp)
        · exact h
      simp [Completion.log, h1f, h2f, h3]

/-- Claim C4 witness: on the record with no templateName, log throws and
issues no request and no diagnostic. -/
theorem c4_witness :
    (strFalsy noTemplateOpts.templateName = true ∨ allFourFalsy noTemplateOpts = true ∨
      definedCount noTemplateOpts > 1) ∧
    (sampleLogger.log noTemplateOpts "gid" okTransport).requests = [] ∧
    (sampleLogger.log noTemplateOpts "gid" okTransport).consoleLog = [] ∧
    (sampleLogger.log noTemplateOpts "gid" okTransport).consoleError = [] :=
  have h := c4_invalid_record_no_network sampleLogger noTemplateOpts "gid" okTransport
    (Or.inl (by decide))
  ⟨Or.inl (by decide), h.2.1, h.2.2.1, h.2.2.2⟩

/-- Claim C5: for every record that passes all three validation rules, the
log call resolves normally (thrown is none) regardless of the transport
outcome; and when the transport rejects, the error is caught and exactly
one diagnostic is emitted on the error channel, consisting of the fixed
Error-logging-completion prefix string and the underlying error. -/
theorem c5_resolves_and_catches_failure (c : Completion) (o : CompletionOptions)
    (g : String) (t : Request → TransportOutcome)
    (h1 : strFalsy o.templateName = false)
    (h2 : allFourFalsy o = false)
    (h3 : ¬ definedCount o > 1) :
    (c.log o g t).thrown = none ∧
    ∀ e, t (buildRequest c o g) = TransportOutcome.failure e →
      (c.log o g t).consoleError = [("Error logging completion:", e)] := by
  constructor
  · cases ht : t (buildRequest c o g) <;> simp [Completion.log, h1, h2, h3, ht]
  · intro e he
    simp [Completion.log, h1, h2, h3, he]

/-- Claim C5 witness: a valid record logged over a rejecting transport
still resolves, with exactly one error diagnostic. -/
theorem c5_witness :
    (sampleLogger.log validOpts "gid" failTransport).thrown = none ∧
    (sampleLogger.log validOpts "gid" failTransport).consoleError =
      [("Error logging completion:", "Network Error")] :=
  have h := c5_resolves_and_catches_failure sampleLogger validOpts "gid" failTransport
    (by decide) (by decide) (by decide)
  ⟨h.1, h.2 "Network Error" rfl⟩

/-- Claim C6: for every record that passes validation, the wire payload is
exactly the input record with the fields renamed to snake case and model,
output, metadata, parser carried over unchanged; log_id is the supplied
logId when one is supplied and the UUID-generator value otherwise. -/
theorem c6_payload_renaming (c : Completion) (o : CompletionOptions)
    (g : String) (t : Request → TransportOutcome)
    (h1 : strFalsy o.templateName = false)
    (h2 : allFourFalsy o = false)
    (h3 : ¬ definedCount o > 1) :
    (c.log o g t).requests.map Request.body = [buildPayload o (o.logId.getD g)] ∧
    buildPayload o (o.logId.getD g) =
      { log_id := o.logId.getD g, template_name := o.templateName
        prompt_template := o.promptTemplate, messages_template := o.messagesTemplate
        prompt_arguments := o.promptArguments, model := o.model
        model_arguments := o.modelArguments, output := o.output
        compiled_prompt := o.compiledPrompt, compiled_messages := o.compiledMessages
        metadata := o.metadata, parser := o.parser } ∧
    (∀ l, o.logId = some l → (buildPayload o (o.logId.getD g)).log_id = l) ∧
    (o.logId = none → (buildPayload o (o.logId.getD g)).log_id = g) := by
  refine ⟨?_, rfl, fun l hl => ?_, fun hn => ?_⟩
  · have hreq : (c.log o g t).requests = [buildRequest c o g] := by
      cases ht : t (buildRequest c o g) <;> simp [Completion.log, h1, h2, h3, ht]
    rw [hreq]
    simp [buildRequest]
  · simp [buildPayload, hl]
  · simp [buildPayload, hn]

/-- Claim C6 witness: concrete payload of a valid record without logId,
with the generator value as log_id. -/
theorem c6_witness :
    (sampleLogger.log validOpts "gid" okTransport).requests.map Request.body =
      [buildPayload validOpts "gid"] ∧
    (buildPayload validOpts "gid").log_id = "gid" ∧
    (buildPayload validOpts "gid").prompt_template = some "Hello, name" :=
  have h := c6_payload_renaming sampleLogger validOpts "gid" okTransport
    (by decide) (by decide) (by decide)
  ⟨h.1, h.2.2.2 rfl, by decide⟩

/-- Claim C7: for every record that passes validation, log issues exactly
one HTTP POST, to the configured apiUrl, with the wire payload as body and
the Authorization header equal to the Bearer string followed by the
configured apiKey; on a resolved response it emits one stdout diagnostic
consisting of the fixed Completion-logged-successfully prefix string and
the response data. -/
theorem c7_single_post_and_success_diag (c : Completion) (o : CompletionOptions)
    (g : String) (t : Request → TransportOutcome)
    (h1 : strFalsy o.templateName = false)
    (h2 : allFourFalsy o = false)
    (h3 : ¬ definedCount o > 1) :
    (c.log o g t).requests = [buildRequest c o g] ∧
    (buildRequest c o g).url = c.apiUrl ∧
    (buildRequest c o g).authorization = "Bearer " ++ c.apiKey ∧
    (buildRequest c o g).body = buildPayload o (o.logId.getD g) ∧
    ∀ d, t (buildRequest c o g) = TransportOutcome.success d →
      (c.log o g t).consoleLog = [("Completion logged successfully:", d)] := by
  refine ⟨?_, rfl, rfl, rfl, fun d hd => ?_⟩
  · cases ht : t (buildRequest c o g) <;> simp [Completion.log, h1, h2, h3, ht]
  · simp [Completion.log, h1, h2, h3, hd]

/-- Claim C7 witness: the concrete request of a valid record carries the
configured url and Bearer header, and the success diagnostic is emitted. -/
theorem c7_witness :
    (sampleLogger.log validOpts "gid" okTransport).requests =
      [buildRequest sampleLogger validOpts "gid"] ∧
    (buildRequest sampleLogger validOpts "gid").url = "http://testurl.com" ∧
    (buildRequest sampleLogger validOpts "gid").authorization = "Bearer test_api_key" ∧
    (sampleLogger.log validOpts "gid" okTransport).consoleLog =
      [("Completion logged successfully:", "Success")] :=
  have h := c7_single_post_and_success_diag sampleLogger validOpts "gid" okTransport
    (by decide) (by decide) (by decide)
  ⟨h.1, by decide, by decide, h.2.2.2.2 "Success" rfl⟩

/-- Claim C8, counterexample: on the record with neither logId nor
templateName, log throws a validation error and the UUID generator is
nevertheless consulted, because the destructuring default runs at the top
of the function body, before the validation checks. -/
theorem c8_counterexample :
    noTemplateOpts.logId = none ∧
    (sampleLogger.log noTemplateOpts "gid" okTransport).thrown.isSome = true ∧
    (sampleLogger.log noTemplateOpts "gid" okTransport).uuidGenCalled = true := by
  decide

/-- Claim C8 (amended): the UUID generator is invoked by the destructuring
default at the start of every log call, before validation: it is consulted
exactly when logId is absent from the record, whether or not validation
passes. -/
theorem c8_generator_called_iff_logid_absent (c : Completion) (o : CompletionOptions)
    (g : String) (t : Request → TransportOutcome) :
    (c.log o g t).uuidGenCalled = o.logId.isNone := by
  by_cases h1 : strFalsy o.templateName = true
  · simp [Completion.log, h1]
  · have h1f : strFalsy o.templateName = false := by
      revert h1
      cases strFalsy o.templateName <;> simp
    by_cases h2 : allFourFalsy o = true
    · simp [Completion.log, h1f, h2]
    · have h2f : allFourFalsy o = false := by
        revert h2
        cases allFourFalsy o <;> simp
      by_cases h3 : definedCount o > 1
      · simp [Completion.log, h1f, h2f, h3]
      · cases ht : t (buildRequest c o g) <;> simp [Completion.log, h1f, h2f, h3, ht]

/-- A string has length zero exactly when it is the empty string. -/
theorem string_length_zero_iff (s : String) : s.length = 0 ↔ s = "" := by
  cases s with
  | mk d =>
    show d.length = 0 ↔ _
    rw [List.length_eq_zero]
    constructor
    · intro h
      subst h
      rfl
    · intro h
      have h2 := congrArg String.data h
      simpa using h2

/-- Claim C9: construction resolves the apiKey as the explicit config
value if given, else the environment value, else the empty string; it
fails with the API-key-is-missing error exactly when the resolved key is
empty (the thrown message indeed starts with the words API key is
missing), and otherwise succeeds with that key and with apiUrl equal to
the explicit config value if given, else the built-in default constant. -/
theorem c9_constructor_resolution (options : Option CompletionCtorOptions) (env : Option String) :
    (Completion.create options env = Except.error apiKeyMissingMsg ↔
      resolveApiKey options env = "") ∧
    apiKeyMissingMsg =
      "API key is missing" ++
        ". Please provide an API key or set the COMPLETION_API_KEY environment variable." ∧
    (∀ co k, options = some co → co.apiKey = some k → resolveApiKey options env = k) ∧
    (options.bind CompletionCtorOptions.apiKey = none →
      resolveApiKey options env = env.getD "") ∧
    (resolveApiKey options env ≠ "" →
      Completion.create options env =
        Except.ok { apiKey := resolveApiKey options env
                    apiUrl := (options.bind CompletionCtorOptions.apiUrl).getD DEFAULT_API_URL }) := by
  refine ⟨⟨fun h => ?_, fun h => ?_⟩, rfl, fun co k hco hk => ?_, fun hn => ?_, fun hne => ?_⟩
  · by_cases hk : (resolveApiKey options env).length = 0
    · exact (string_length_zero_iff _).mp hk
    · exfalso
      simp [Completion.create, hk] at h
  · have hk : (resolveApiKey options env).length = 0 := (string_length_zero_iff _).mpr h
    simp [Completion.create, hk]
  · simp [resolveApiKey, hco, hk, Option.orElse]
  · simp [resolveApiKey, hn, Option.orElse]
  · have hk : ¬ (resolveApiKey options env).length = 0 := by
      intro hz
      exact hne ((string_length_zero_iff _).mp hz)
    simp [Completion.create, hk]

/-- A concrete constructor argument object supplying both fields. -/
def cfgSample : Option CompletionCtorOptions :=
  some { apiKey := some "test_api_key", apiUrl := some "http://testurl.com" }

/-- Claim C9 witness: explicit key and url are taken as given, and
construction succeeds. -/
theorem c9_witness :
    resolveApiKey cfgSample none ≠ "" ∧
    Completion.create cfgSample none =
      Except.ok { apiKey := "test_api_key", apiUrl := "http://testurl.com" } :=
  have h := c9_constructor_resolution cfgSample none
  ⟨by decide, h.2.2.2.2 (by decide)⟩

/-- Claim C10: the two mutual-exclusion checks of log use different
notions of presence: the at-least-one check treats a field as absent
whenever it is falsy while the at-most-one check counts every field that
is not undefined. Consequently, for every record (reaching these checks
with a truthy templateName) whose only defined prompt-source field is the
empty string promptTemplate, log throws the Either-is-required error even
though one of the four fields is present. -/
theorem c10_presence_notion_mismatch (c : Completion) (o : CompletionOptions)
    (g : String) (t : Request → TransportOutcome)
    (h1 : strFalsy o.templateName = false)
    (hp : o.promptTemplate = some "")
    (hm : o.messagesTemplate = none)
    (hcp : o.compiledPrompt = none)
    (hcm : o.compiledMessages = none) :
    definedCount o = 1 ∧ (c.log o g t).thrown = some eitherRequiredMsg := by
  have h2 : allFourFalsy o = true := by
    simp [allFourFalsy, strFalsy, msgsFalsy, hp, hm, hcp, hcm]
  exact ⟨by simp [definedCount, hp, hm, hcp, hcm],
    by simp [Completion.log, h1, h2]⟩

/-- Claim C10 witness: the concrete record whose only prompt-source field
is the empty string promptTemplate has one defined field yet draws the
Either-is-required error. -/
theorem c10_witness :
    strFalsy emptyPromptOpts.templateName = false ∧
    emptyPromptOpts.promptTemplate = some "" ∧
    definedCount emptyPromptOpts = 1 ∧
    (sampleLogger.log emptyPromptOpts "gid" okTransport).thrown = some eitherRequiredMsg :=
  have h := c10_presence_notion_mismatch sampleLogger emptyPromptOpts "gid" okTransport
    (by decide) rfl rfl rfl rfl
  ⟨by decide, rfl, h.1, h.2⟩
